import Mathlib

/-!
Verification development for the lumokit chat request pipeline
(`src/api/chat/controllers.py`).

The data model and the operations below are a shallow embedding of the
Python source: the durable `Requests` row becomes the `Turn` structure, the
database becomes a `List Turn`, and the streamed HTTP response becomes a
`List Chunk`.  Outcomes of the external collaborators (signature
verification, pro-status lookup, the model backend's token stream, the
tokenizer) are inputs of the embedding, packaged in `Env`.
-/

namespace LumoKit

/-- Characters of `string.ascii_letters + string.digits`, the alphabet used
by `generate_conversation_key` in the source. -/
def keyChars : List Char :=
  ("abcdefghijklmnopqrstuvwxyzABCDEFGHIJKLMNOPQRSTUVWXYZ0123456789").data

/-- Embedding of `generate_conversation_key(length=10)`: a string of
`length` characters, each drawn from `keyChars`; `pick` models the
successive outcomes of `random.choice(chars)`. -/
def generate_conversation_key (pick : Nat → Fin keyChars.length)
    (length : Nat := 10) : String :=
  ⟨(List.range length).map (fun i => keyChars.get (pick i))⟩

/-- Python `len` on a string, counting code points. -/
def string_len (s : String) : Nat := s.data.length

/-- Python slice `s[:n]`. -/
def string_take (s : String) (n : Nat) : String := ⟨s.data.take n⟩

/-- Python `needle in hay` on lists of characters. -/
def charsContain (needle : List Char) : List Char → Bool
  | [] => needle.isEmpty
  | c :: cs => needle.isPrefixOf (c :: cs) || charsContain needle cs

/-- Python `needle in hay` on strings. -/
def stringContains (hay needle : String) : Bool := charsContain needle.data hay.data

/-- Python `s.startswith(p)`. -/
def starts_with (s p : String) : Bool := p.data.isPrefixOf s.data

/-- Python `s.lower()` (ASCII). -/
def string_lower (s : String) : String := ⟨s.data.map Char.toLower⟩

/-- Snapshot of the resolved input parameters stored on the row
(`input_params` in the source).  The `temperature` float is omitted:
no claim mentions it and floating point is outside the embedding. -/
structure InputParams where
  public_key : String
  conversation_key : String
  message : String
  model_name : String
  tools : List String
deriving DecidableEq, Repr

/-- The durable `Requests` row (the ConversationTurn record).  `time` is a
timestamp modelled as a natural number. -/
structure Turn where
  id : Nat
  pubkey : String
  conversation_key : String
  input_params : Option InputParams
  message : String
  success : Bool
  response : Option String
  input_token_count : Option Nat
  output_token_count : Option Nat
  total_token_count : Option Nat
  time : Nat
deriving DecidableEq, Repr

/-- The models admitted by the request schema
(`AllowedModelName` in `src/api/chat/schema.py`). -/
inductive AllowedModelName where
  | gpt_4_1
  | gpt_4_1_mini
  | gpt_4o
  | claude_3_7_sonnet
  | gemini_2_5_pro_preview
  | llama_4_maverick
  | lumo_70b
  | lumo_8b
  | lumo_deepseek_8b
deriving DecidableEq, Repr

/-- The identifier string of each allowed model. -/
def modelString : AllowedModelName → String
  | .gpt_4_1 => "gpt-4.1"
  | .gpt_4_1_mini => "gpt-4.1-mini"
  | .gpt_4o => "gpt-4o"
  | .claude_3_7_sonnet => "anthropic/claude-3.7-sonnet"
  | .gemini_2_5_pro_preview => "google/gemini-2.5-pro-preview"
  | .llama_4_maverick => "meta-llama/llama-4-maverick"
  | .lumo_70b => "lumo-70b"
  | .lumo_8b => "lumo-8b"
  | .lumo_deepseek_8b => "lumo-deepseek-8b"

/-- `model_name = chat_request.model_name or "gpt-4.1-mini"`. -/
def modelStringOf (m : Option AllowedModelName) : String :=
  (m.map modelString).getD "gpt-4.1-mini"

/-- The inbound `ChatRequest` body (temperature omitted; see `InputParams`). -/
structure ChatRequestModel where
  public_key : String
  signature : String
  agent_public : Option String
  agent_private : Option String
  conversation_key : Option String
  message : String
  model_name : Option AllowedModelName
  tools : List String

/-- The registry of requestable tool implementations: the keys of the
`available_tools` dictionary in `stream_response`.  The two default tools
(wallet portfolio, token identification) are not in this registry. -/
def availableToolNames : List String :=
  [ "rugcheck_token_information_tool"
  , "fluxbeam_token_price_tool"
  , "jupiter_token_price_tool"
  , "jupiter_token_information_tool"
  , "jupiter_swap_tool"
  , "dexscreener_top_boosts_tool"
  , "dexscreener_token_information_tool"
  , "birdeye_token_trending_tool"
  , "birdeye_all_time_trades_tool"
  , "cmc_crypto_news_tool"
  , "cmc_trending_coins_tool"
  , "cn_memecoins_news_tool"
  , "geckoterminal_trending_pumpfun_tool"
  , "coingecko_global_crypto_data_tool"
  , "coingecko_trending_tool"
  , "coingecko_exchange_rates_tool"
  , "coingecko_coin_data_tool"
  , "solana_send_sol_tool"
  , "solana_send_spl_tokens_tool"
  , "solana_burn_token_tool"
  , "pumpfun_launch_coin_tool" ]

/-- `requested_tools = [tool for tool in chat_request.tools if tool in available_tools]`. -/
def requestedToolsOf (tools : List String) : List String :=
  tools.filter (fun t => availableToolNames.contains t)

/-- Appending requested tool instances while avoiding duplicates
(`if tool_instance not in tools: tools.append(...)`), starting from the
two default tools. -/
def dedupAppend (requested : List String) : List String :=
  requested.foldl (fun acc t => if acc.contains t then acc else acc ++ [t]) []

/-- Names of the tools handed to the agent: the two defaults plus the
de-duplicated requested ones. -/
def agentToolNames (requested : List String) : List String :=
  ["wallet_portfolio_tool", "token_identification_tool"] ++ dedupAppend requested

/-- The three model backends of the router
(`ChatOpenAI` setup branches in `stream_response`). -/
inductive Backend where
  | openai
  | infyr
  | openrouter
deriving DecidableEq, Repr

/-- The backend decision chain: `if "gpt" in model_name.lower(): ...
elif model_name.startswith("lumo-"): ... else: ...`. -/
def routeBackend (model_name : String) : Backend :=
  if stringContains (string_lower model_name) "gpt" then .openai
  else if starts_with model_name "lumo-" then .infyr
  else .openrouter

/-- Configuration of the streaming execution engine for a turn that
reaches generation. -/
structure EngineRun where
  backend : Backend
  directMode : Bool
  maxTokens : Option Nat
  toolNames : List String
deriving DecidableEq, Repr

/-- One chunk of the streamed response body: the initial
conversation-key JSON object, raw model content, or an error JSON object. -/
inductive Chunk where
  | conversationKey (key : String)
  | content (text : String)
  | errorJson (message : String)
deriving DecidableEq, Repr

/-- Wire text of a chunk, as produced by `json.dumps` in the source. -/
def chunk_text : Chunk → String
  | .conversationKey k => "\x7b\"conversation_key\": \"" ++ k ++ "\"\x7d\n"
  | .content t => t
  | .errorJson m => "\x7b\"error\": \"" ++ m ++ "\"\x7d"

def authFailedMsg : String := "Authentication failed, please relogin and try again."

def freeModelMsg : String :=
  "Free users can only use the default gpt-4.1-mini model or Lumo models. Upgrade to Pro for access to additional models."

def proLimitMsg : String :=
  "You\x27ve hit today\x27s message limit. It will reset automatically tomorrow."

def freeLimitMsg : String :=
  "You\x27ve reached today\x27s message limit. Upgrade to Pro for more access."

def toolLimitMsg : String :=
  "Free users can only use one additional tool beyond the defaults. Upgrade to Pro for access to more tools."

/-- Daily allowance configuration (`FREE_USER_DAILY_LIMIT`,
`PRO_USER_DAILY_LIMIT`, with the source's fallbacks as defaults). -/
structure LimitsConfig where
  FREE_USER_DAILY_LIMIT : Nat := 10
  PRO_USER_DAILY_LIMIT : Nat := 200

def defaultCfg : LimitsConfig := {}

/-- The allowance for the resolved tier. -/
def dailyLimitFor (cfg : LimitsConfig) (isPro : Bool) : Nat :=
  if isPro then cfg.PRO_USER_DAILY_LIMIT else cfg.FREE_USER_DAILY_LIMIT

/-- Count of today's rows for a user:
`db.query(Requests).filter(pubkey == pk, time >= today_start).count()`. -/
def todayRequestCount (db : List Turn) (pk : String) (today_start : Nat) : Nat :=
  (db.filter (fun t => t.pubkey == pk && decide (today_start ≤ t.time))).length

/-- Whether a row exists for `{identity, key}`
(the `existing_convo` query in `process_chat_request`). -/
def existing_conversation (db : List Turn) (pk key : String) : Bool :=
  db.any (fun t => t.pubkey == pk && t.conversation_key == key)

/-- Conversation-key resolution: keep a supplied key only when a row for
`{identity, key}` exists; otherwise (absent, empty, or unknown key) use the
freshly generated key. -/
def resolveConversationKey (db : List Turn) (pk : String)
    (supplied : Option String) (fresh : String) : String :=
  match supplied with
  | none => fresh
  | some k =>
      if k == "" then fresh
      else if existing_conversation db pk k then k else fresh

/-- The model-tier gate: free users may only pick the default model or a
Lumo model (`not is_pro_user and chat_request.model_name and ...`). -/
def freeModelViolation (isPro : Bool) (model_name : Option AllowedModelName) : Bool :=
  !isPro &&
    (match model_name with
     | some m => !(modelString m == "gpt-4.1-mini") && !(starts_with (modelString m) "lumo-")
     | none => false)

/-- Rows of the store belonging to `{identity, conversation key}`. -/
def turnsFor (db : List Turn) (pk key : String) : List Turn :=
  db.filter (fun t => t.pubkey == pk && t.conversation_key == key)

/-- Newest-first ordering on rows (`order_by(Requests.time.desc())`). -/
def timeGE (a b : Turn) : Prop := b.time ≤ a.time

instance : DecidableRel timeGE := fun a b => Nat.decLe b.time a.time

instance : IsTotal Turn timeGE := ⟨fun a b => Nat.le_total b.time a.time⟩

instance : IsTrans Turn timeGE :=
  ⟨fun _ _ _ h h' => Nat.le_trans h' h⟩

/-- Rows sorted newest first. -/
def sortByTimeDesc (l : List Turn) : List Turn := l.insertionSort timeGE

/-- The history query of `stream_response`: the 5 most recent rows for
`{identity, key}` by recency, put back in chronological order
(`.order_by(time.desc()).limit(5).all()` then `[::-1]`). -/
def conversation_history (db : List Turn) (pk key : String) : List Turn :=
  ((sortByTimeDesc (turnsFor db pk key)).take 5).reverse

/-- The prior turns handed to the model: the history minus the current
turn (`conversation_history[:-1]`). -/
def prior_history (db : List Turn) (pk key : String) : List Turn :=
  (conversation_history db pk key).dropLast

/-- Outcome of the model backend for one generation, as observed through
the stream: either a successful sequence of content chunks, or an
exception after a (possibly empty) prefix of content chunks. -/
inductive GenOutcome where
  | success (toks : List String)
  | failure (toks : List String) (err : String)

/-- Environment of one request: the store, the outcomes of the external
collaborators, and the clock. -/
structure Env where
  db : List Turn
  sigValid : Bool
  isPro : Bool
  todayStart : Nat
  now : Nat
  nextId : Nat
  pick : Nat → Fin keyChars.length
  tokenCount : String → Nat
  systemMessage : String
  gen : GenOutcome

/-- Result of one call of `process_chat_request`: either an early
rejection (before any row is created), or a stream with the final state of
the single row created for the attempt, plus the engine configuration when
generation was actually started. -/
inductive PipelineOutcome where
  | rejected (chunks : List Chunk)
  | streamed (finalRow : Turn) (chunks : List Chunk) (engine : Option EngineRun)
deriving DecidableEq, Repr

def base_system_message : String :=
  "You are LumoKit, a helpful AI assistant specialized in Solana actions and queries."

/-- Token count of the chat history contents, as summed by
`count_tokens([msg.content for msg in chat_history])` over the messages
appended for each prior turn (`if prev_req.message:` / `if prev_req.response:`,
empty strings being falsy). -/
def historyTokens (tokenCount : String → Nat) (prior : List Turn) : Nat :=
  (prior.map (fun t =>
    (if t.message == "" then 0 else tokenCount t.message) +
    (match t.response with
     | some r => if r == "" then 0 else tokenCount r
     | none => 0))).sum

/-- The key resolved for a request under an environment. -/
def resolved_key (env : Env) (req : ChatRequestModel) : String :=
  resolveConversationKey env.db req.public_key req.conversation_key
    (generate_conversation_key env.pick)

/-- The ConversationTurn row created before streaming begins
(`Requests(...)` constructed at the end of `process_chat_request`):
success is false and the response is null. -/
def initial_row (env : Env) (req : ChatRequestModel) : Turn :=
  { id := env.nextId
    pubkey := req.public_key
    conversation_key := resolved_key env req
    input_params := some
      { public_key := req.public_key
        conversation_key := resolved_key env req
        message := req.message
        model_name := modelStringOf req.model_name
        tools := req.tools }
    message := req.message
    success := false
    response := none
    input_token_count := none
    output_token_count := none
    total_token_count := none
    time := env.now }

/-- The backend configuration of the engine for a request that reaches
generation: the routing decision chain plus the Lumo-family overrides
(`max_tokens=4096`, `tools = []`) and the direct/agent mode choice. -/
def engine_config (req : ChatRequestModel) : EngineRun :=
  let model_name := modelStringOf req.model_name
  let backend := routeBackend model_name
  let is_infyr : Bool := match backend with | .infyr => true | _ => false
  { backend := backend
    directMode := starts_with model_name "lumo-"
    maxTokens := if is_infyr then some 4096 else none
    toolNames := if is_infyr then [] else agentToolNames (requestedToolsOf req.tools) }

/-- Embedding of the `stream_response` generator (together with the row
creation that immediately precedes it in `process_chat_request`): creates
the row, emits the conversation-key chunk, enforces the free-tier tool
cap, configures the backend and runs generation, finalizing the row. -/
def stream_response (env : Env) (req : ChatRequestModel) : PipelineOutcome :=
  let conversation_key := resolved_key env req
  let row0 := initial_row env req
  let requested_tools := requestedToolsOf req.tools
  if env.isPro = false ∧ 1 < requested_tools.length then
    .streamed
      { row0 with success := false
                  response := some (chunk_text (Chunk.errorJson toolLimitMsg)) }
      [Chunk.conversationKey conversation_key, Chunk.errorJson toolLimitMsg]
      none
  else
    let engine := engine_config req
    -- the history query runs on the store after the row insert, so the
    -- current row is among the (at most) 5 fetched and is dropped
    let prior := prior_history (env.db ++ [row0]) req.public_key conversation_key
    -- system prompt: the Lumo direct path uses the base message alone; the
    -- agent path uses the assembled message (wallet context and external
    -- tool descriptions), abstracted as `env.systemMessage`
    let sys := if engine.directMode then base_system_message else env.systemMessage
    match env.gen with
    | .success toks =>
        let full_response_text := String.join toks
        let input_token_count :=
          env.tokenCount sys + historyTokens env.tokenCount prior
            + env.tokenCount req.message
        let output_token_count := env.tokenCount full_response_text
        .streamed
          { row0 with success := true
                      response := some full_response_text
                      input_token_count := some input_token_count
                      output_token_count := some output_token_count
                      total_token_count := some (input_token_count + output_token_count) }
          (Chunk.conversationKey conversation_key :: toks.map Chunk.content)
          (some engine)
    | .failure toks err =>
        .streamed
          { row0 with success := false
                      response := some ("Error: " ++ err)
                      input_token_count := some 0
                      output_token_count := some 0
                      total_token_count := some 0 }
          (Chunk.conversationKey conversation_key
            :: (toks.map Chunk.content ++ [Chunk.errorJson err]))
          (some engine)

/-- Embedding of `process_chat_request`: the authentication,
model-tier and quota gates, then the streaming body. -/
def process_chat_request (cfg : LimitsConfig) (env : Env)
    (req : ChatRequestModel) : PipelineOutcome :=
  if env.sigValid = false then
    .rejected [Chunk.errorJson authFailedMsg]
  else if freeModelViolation env.isPro req.model_name = true then
    .rejected [Chunk.errorJson freeModelMsg]
  else if env.isPro = true ∧
      cfg.PRO_USER_DAILY_LIMIT ≤ todayRequestCount env.db req.public_key env.todayStart then
    .rejected [Chunk.errorJson proLimitMsg]
  else if env.isPro = false ∧
      cfg.FREE_USER_DAILY_LIMIT ≤ todayRequestCount env.db req.public_key env.todayStart then
    .rejected [Chunk.errorJson freeLimitMsg]
  else
    stream_response env req

/-- Number of ConversationTurn rows created by the attempt. -/
def rowsCreated : PipelineOutcome → Nat
  | .rejected _ => 0
  | .streamed _ _ _ => 1

/-- The chunks streamed to the caller. -/
def chunksOf : PipelineOutcome → List Chunk
  | .rejected cs => cs
  | .streamed _ cs _ => cs

/-- The final stored response field of the created row, when one exists. -/
def responseOf : PipelineOutcome → Option String
  | .rejected _ => none
  | .streamed row _ _ => row.response

/-- The engine configuration, when generation was started. -/
def engineOf : PipelineOutcome → Option EngineRun
  | .rejected _ => none
  | .streamed _ _ e => e

/-- Whether the attempt ended on the free-tier tool-cap error path
(the only path that creates a row but never starts the engine). -/
def hitToolLimit : PipelineOutcome → Bool
  | .streamed _ _ none => true
  | _ => false

/-- Whether a chunk is an error JSON object. -/
def isErrorChunk : Chunk → Bool
  | .errorJson _ => true
  | _ => false

/-! Concrete inputs used by witnesses and counterexamples. -/

/-- A degenerate randomness source that always picks the first character. -/
def zeroPick : Nat → Fin keyChars.length := fun _ => ⟨0, by decide⟩

/-- A completed example row for user `u`, conversation `k`. -/
def mkTurn (i : Nat) : Turn :=
  { id := i
    pubkey := "u"
    conversation_key := "k"
    input_params := none
    message := "m"
    success := true
    response := some "r"
    input_token_count := none
    output_token_count := none
    total_token_count := none
    time := i + 1 }

/-- A baseline environment: valid signature, free tier, empty store. -/
def baseEnv : Env :=
  { db := []
    sigValid := true
    isPro := false
    todayStart := 0
    now := 100
    nextId := 1
    pick := zeroPick
    tokenCount := fun _ => 0
    systemMessage := ""
    gen := .success [] }

/-- A baseline request: user `u`, no conversation key, default model. -/
def baseReq : ChatRequestModel :=
  { public_key := "u"
    signature := "sig"
    agent_public := none
    agent_private := none
    conversation_key := none
    message := "hi"
    model_name := none
    tools := [] }

/-- Three registry-known capability identifiers. -/
def threeKnownTools : List String :=
  ["jupiter_swap_tool", "rugcheck_token_information_tool", "coingecko_trending_tool"]

/-- The finalized row after a generation failure: success false, response
overwritten with the formatted error string, token counts zeroed. -/
def failed_row (env : Env) (req : ChatRequestModel) (err : String) : Turn :=
  { initial_row env req with
      success := false
      response := some ("Error: " ++ err)
      input_token_count := some 0
      output_token_count := some 0
      total_token_count := some 0 }

/-- An environment whose generation throws after emitting "Hello, ". -/
def envHelloFail : Env := { baseEnv with gen := .failure ["Hello, "] "boom" }

/-- Ten completed rows for user `u` today. -/
def tenTurns : List Turn := (List.range 10).map mkTurn

/-- An environment where user `u` is at the free daily allowance. -/
def envAtLimit : Env := { baseEnv with db := tenTurns, nextId := 11 }

/-- The baseline environment for a pro-tier caller. -/
def envPro : Env := { baseEnv with isPro := true }

/-- A six-turn conversation for user `u`, key `k`, in chronological order. -/
def chron6 : List Turn := (List.range 6).map mkTurn

/-- Rows of the store belonging to a user
(`.filter(Requests.pubkey == request.public_key)`). -/
def userRows (db : List Turn) (pk : String) : List Turn :=
  db.filter (fun t => t.pubkey == pk)

/-- Whether a row carries the latest activity of its conversation within a
row set (the `func.max(Requests.time)` group-by subquery joined back on
equal key and time). -/
def isLatestForKey (rows : List Turn) (t : Turn) : Bool :=
  rows.all (fun u => u.conversation_key != t.conversation_key ||
    decide (u.time ≤ t.time))

/-- The rows backing "list recent conversations": per conversation key the
latest row of the user, ordered newest first, limited to 5. -/
def latest_conversations (db : List Turn) (pk : String) : List Turn :=
  (sortByTimeDesc
    ((userRows db pk).filter (fun t => isLatestForKey (userRows db pk) t))).take 5

/-- One entry of the "list recent conversations" response
(`ConversationSummary` in `src/api/chat/schema.py`). -/
structure ConversationSummary where
  conversation_key : String
  last_message_preview : String
  timestamp : Nat
deriving DecidableEq, Repr

/-- The message preview: `message[:50] + "..."` when the message exceeds
50 characters, the message itself otherwise. -/
def message_preview (msg : String) : String :=
  if 50 < string_len msg then string_take msg 50 ++ "..." else msg

/-- Embedding of `get_last_conversations` after authentication: the
summaries of the user's most recently active conversations. -/
def get_last_conversations (db : List Turn) (pk : String) :
    List ConversationSummary :=
  (latest_conversations db pk).map (fun t =>
    { conversation_key := t.conversation_key
      last_message_preview := message_preview t.message
      timestamp := t.time })

/-! Helper lemmas. -/

/-- When the signature, model-tier and quota gates all pass, the pipeline
reduces to its streaming body. -/
theorem process_gates_passed (cfg : LimitsConfig) (env : Env) (req : ChatRequestModel)
    (h1 : env.sigValid = true)
    (h2 : freeModelViolation env.isPro req.model_name = false)
    (hq : todayRequestCount env.db req.public_key env.todayStart <
      dailyLimitFor cfg env.isPro) :
    process_chat_request cfg env req = stream_response env req := by
  have hs : ¬ (env.sigValid = false) := by simp [h1]
  have hm : ¬ (freeModelViolation env.isPro req.model_name = true) := by simp [h2]
  have hp : ¬ (env.isPro = true ∧
      cfg.PRO_USER_DAILY_LIMIT ≤ todayRequestCount env.db req.public_key env.todayStart) := by
    rintro ⟨hpro, hle⟩
    simp only [dailyLimitFor, hpro, if_true] at hq
    omega
  have hf : ¬ (env.isPro = false ∧
      cfg.FREE_USER_DAILY_LIMIT ≤ todayRequestCount env.db req.public_key env.todayStart) := by
    rintro ⟨hpro, hle⟩
    simp only [dailyLimitFor, hpro, Bool.false_eq_true, if_false] at hq
    omega
  rw [process_chat_request, if_neg hs, if_neg hm, if_neg hp, if_neg hf]

/-- The streaming body on the free-tier tool-cap error path. -/
theorem stream_response_toolLimit (env : Env) (req : ChatRequestModel)
    (hfree : env.isPro = false)
    (hlen : 1 < (requestedToolsOf req.tools).length) :
    stream_response env req =
      .streamed
        { initial_row env req with
            success := false
            response := some (chunk_text (Chunk.errorJson toolLimitMsg)) }
        [Chunk.conversationKey (resolved_key env req), Chunk.errorJson toolLimitMsg]
        none := by
  rw [stream_response, if_pos ⟨hfree, hlen⟩]

/-- The streaming body when the tool gate passes: the engine runs. -/
theorem stream_response_engine (env : Env) (req : ChatRequestModel)
    (htool : env.isPro = true ∨ (requestedToolsOf req.tools).length ≤ 1) :
    ∃ row chunks,
      stream_response env req =
        .streamed row (Chunk.conversationKey (resolved_key env req) :: chunks)
          (some (engine_config req)) := by
  have hcond : ¬ (env.isPro = false ∧ 1 < (requestedToolsOf req.tools).length) := by
    rintro ⟨hfree, hlen⟩
    rcases htool with h | h
    · rw [h] at hfree; exact Bool.noConfusion hfree
    · omega
  rw [stream_response, if_neg hcond]
  cases env.gen with
  | success toks => exact ⟨_, _, rfl⟩
  | failure toks err => exact ⟨_, _, rfl⟩

/-- The streaming body always yields a stream outcome (a row is created
on every path past the gates). -/
theorem stream_response_streamed (env : Env) (req : ChatRequestModel) :
    ∃ row chunks eng, stream_response env req = .streamed row chunks eng := by
  rw [stream_response]
  by_cases hcond : env.isPro = false ∧ 1 < (requestedToolsOf req.tools).length
  · rw [if_pos hcond]; exact ⟨_, _, _, rfl⟩
  · rw [if_neg hcond]; cases env.gen <;> exact ⟨_, _, _, rfl⟩

/-- The streaming body on a generation failure. -/
theorem stream_response_failure (env : Env) (req : ChatRequestModel)
    (toks : List String) (err : String)
    (htool : env.isPro = true ∨ (requestedToolsOf req.tools).length ≤ 1)
    (hg : env.gen = .failure toks err) :
    stream_response env req =
      .streamed (failed_row env req err)
        (Chunk.conversationKey (resolved_key env req)
          :: (toks.map Chunk.content ++ [Chunk.errorJson err]))
        (some (engine_config req)) := by
  have hcond : ¬ (env.isPro = false ∧ 1 < (requestedToolsOf req.tools).length) := by
    rintro ⟨hfree, hlen⟩
    rcases htool with h | h
    · rw [h] at hfree; exact Bool.noConfusion hfree
    · omega
  rw [stream_response, if_neg hcond, hg]
  rfl

/-- Content chunks are never error chunks. -/
theorem filter_content_no_error (toks : List String) :
    (toks.map Chunk.content).filter isErrorChunk = [] := by
  induction toks with
  | nil => rfl
  | cons t ts ih => simp [isErrorChunk, ih]

/-! Claim theorems. -/

/-- Claim C4 (confirmed): for every submit-chat-turn that passes the
authentication, model-tier and quota gates, the first fragment emitted on
the response stream is the JSON object carrying the resolved conversation
key, and no model-content fragment precedes it (every other chunk comes
after it in the stream). -/
theorem chat_first_chunk_is_conversation_key (cfg : LimitsConfig) (env : Env)
    (req : ChatRequestModel)
    (h1 : env.sigValid = true)
    (h2 : freeModelViolation env.isPro req.model_name = false)
    (hq : todayRequestCount env.db req.public_key env.todayStart <
      dailyLimitFor cfg env.isPro) :
    ∃ rest, chunksOf (process_chat_request cfg env req) =
      Chunk.conversationKey (resolved_key env req) :: rest := by
  rw [process_gates_passed cfg env req h1 h2 hq]
  rw [stream_response]
  by_cases hcond : env.isPro = false ∧ 1 < (requestedToolsOf req.tools).length
  · rw [if_pos hcond]; exact ⟨_, rfl⟩
  · rw [if_neg hcond]
    cases env.gen with
    | success toks => exact ⟨_, rfl⟩
    | failure toks err => exact ⟨_, rfl⟩

/-- Witness for C4 at a concrete input. -/
theorem chat_first_chunk_is_conversation_key_witness :
    baseEnv.sigValid = true ∧
    freeModelViolation baseEnv.isPro baseReq.model_name = false ∧
    todayRequestCount baseEnv.db baseReq.public_key baseEnv.todayStart <
      dailyLimitFor defaultCfg baseEnv.isPro ∧
    ∃ rest, chunksOf (process_chat_request defaultCfg baseEnv baseReq) =
      Chunk.conversationKey (resolved_key baseEnv baseReq) :: rest :=
  ⟨by decide, by decide, by decide,
    chat_first_chunk_is_conversation_key defaultCfg baseEnv baseReq
      (by decide) (by decide) (by decide)⟩

/-- Counterexample for claim C1: an authenticated free-tier caller within
quota who requests three registry-known capabilities does get the
streamed authorization error, but one ConversationTurn row is created for
the attempt, not zero. -/
theorem free_three_tools_creates_one_row :
    rowsCreated (process_chat_request defaultCfg baseEnv
      { baseReq with tools := threeKnownTools }) = 1 ∧
    chunksOf (process_chat_request defaultCfg baseEnv
      { baseReq with tools := threeKnownTools }) =
      [Chunk.conversationKey "aaaaaaaaaa", Chunk.errorJson toolLimitMsg] := by
  constructor
  · decide
  · decide

/-- Claim C1 (amended): for every authenticated free-tier caller passing
the model-tier and quota gates whose requested capability list contains 3
registry-known identifiers, the request is rejected with a streamed
authorization-error message, and exactly one ConversationTurn row is
created for the attempt, marked failed with the error JSON as its stored
response and the model never invoked. -/
theorem free_three_tools_rejected_one_failed_row (cfg : LimitsConfig) (env : Env)
    (req : ChatRequestModel)
    (h1 : env.sigValid = true)
    (h2 : freeModelViolation env.isPro req.model_name = false)
    (hq : todayRequestCount env.db req.public_key env.todayStart <
      dailyLimitFor cfg env.isPro)
    (hfree : env.isPro = false)
    (hlen : (requestedToolsOf req.tools).length = 3) :
    process_chat_request cfg env req =
      .streamed
        { initial_row env req with
            success := false
            response := some (chunk_text (Chunk.errorJson toolLimitMsg)) }
        [Chunk.conversationKey (resolved_key env req), Chunk.errorJson toolLimitMsg]
        none ∧
    rowsCreated (process_chat_request cfg env req) = 1 ∧
    engineOf (process_chat_request cfg env req) = none := by
  have h := process_gates_passed cfg env req h1 h2 hq
  have h' := stream_response_toolLimit env req hfree (by omega)
  rw [h, h']
  exact ⟨rfl, rfl, rfl⟩

/-- Witness for the amended C1 at a concrete input. -/
theorem free_three_tools_rejected_one_failed_row_witness :
    baseEnv.sigValid = true ∧
    baseEnv.isPro = false ∧
    (requestedToolsOf threeKnownTools).length = 3 ∧
    (process_chat_request defaultCfg baseEnv { baseReq with tools := threeKnownTools } =
      .streamed
        { initial_row baseEnv { baseReq with tools := threeKnownTools } with
            success := false
            response := some (chunk_text (Chunk.errorJson toolLimitMsg)) }
        [Chunk.conversationKey (resolved_key baseEnv { baseReq with tools := threeKnownTools }),
         Chunk.errorJson toolLimitMsg]
        none ∧
    rowsCreated (process_chat_request defaultCfg baseEnv
      { baseReq with tools := threeKnownTools }) = 1 ∧
    engineOf (process_chat_request defaultCfg baseEnv
      { baseReq with tools := threeKnownTools }) = none) :=
  ⟨by decide, by decide, by decide,
    free_three_tools_rejected_one_failed_row defaultCfg baseEnv
      { baseReq with tools := threeKnownTools }
      (by decide) (by decide) (by decide) (by decide) (by decide)⟩

/-- Counterexample for claim C2: when generation throws after the partial
text "Hello, " was emitted, the stored response field is the formatted
error string, not the partial text "Hello, ". -/
theorem partial_failure_stores_error_not_partial :
    responseOf (process_chat_request defaultCfg envHelloFail baseReq) =
      some "Error: boom" ∧
    responseOf (process_chat_request defaultCfg envHelloFail baseReq) ≠
      some "Hello, " := by
  constructor
  · decide
  · decide

/-- Claim C2 (amended): for every submit-chat-turn past the gates and the
tool cap whose generation raises an exception after the partial text
"Hello, " has been emitted, the final stored response field is the
formatted error string "Error: " followed by the exception message (not
the partial text), the success flag is false, the three token counts are
0, and the caller's stream ends with an error JSON chunk. -/
theorem partial_hello_failure_finalizes (cfg : LimitsConfig) (env : Env)
    (req : ChatRequestModel) (err : String)
    (h1 : env.sigValid = true)
    (h2 : freeModelViolation env.isPro req.model_name = false)
    (hq : todayRequestCount env.db req.public_key env.todayStart <
      dailyLimitFor cfg env.isPro)
    (htool : env.isPro = true ∨ (requestedToolsOf req.tools).length ≤ 1)
    (hg : env.gen = .failure ["Hello, "] err) :
    process_chat_request cfg env req =
      .streamed (failed_row env req err)
        [Chunk.conversationKey (resolved_key env req), Chunk.content "Hello, ",
         Chunk.errorJson err]
        (some (engine_config req)) ∧
    responseOf (process_chat_request cfg env req) = some ("Error: " ++ err) ∧
    (failed_row env req err).success = false ∧
    (failed_row env req err).input_token_count = some 0 ∧
    (failed_row env req err).output_token_count = some 0 ∧
    (failed_row env req err).total_token_count = some 0 ∧
    (chunksOf (process_chat_request cfg env req)).getLast? =
      some (Chunk.errorJson err) := by
  have h := process_gates_passed cfg env req h1 h2 hq
  have h' := stream_response_failure env req ["Hello, "] err htool hg
  rw [h, h']
  refine ⟨rfl, rfl, rfl, rfl, rfl, rfl, rfl⟩

/-- Witness for the amended C2 at a concrete input. -/
theorem partial_hello_failure_finalizes_witness :
    envHelloFail.sigValid = true ∧
    envHelloFail.gen = GenOutcome.failure ["Hello, "] "boom" ∧
    (process_chat_request defaultCfg envHelloFail baseReq =
      .streamed (failed_row envHelloFail baseReq "boom")
        [Chunk.conversationKey (resolved_key envHelloFail baseReq),
         Chunk.content "Hello, ", Chunk.errorJson "boom"]
        (some (engine_config baseReq)) ∧
    responseOf (process_chat_request defaultCfg envHelloFail baseReq) =
      some ("Error: " ++ "boom") ∧
    (failed_row envHelloFail baseReq "boom").success = false ∧
    (failed_row envHelloFail baseReq "boom").input_token_count = some 0 ∧
    (failed_row envHelloFail baseReq "boom").output_token_count = some 0 ∧
    (failed_row envHelloFail baseReq "boom").total_token_count = some 0 ∧
    (chunksOf (process_chat_request defaultCfg envHelloFail baseReq)).getLast? =
      some (Chunk.errorJson "boom")) :=
  ⟨rfl, rfl,
    partial_hello_failure_finalizes defaultCfg envHelloFail baseReq "boom"
      (by decide) (by decide) (by decide) (Or.inr (by decide)) rfl⟩

/-- Claim C3 (confirmed): for every exception raised during generation of a
submit-chat-turn (after the row exists), the pipeline catches it, yields
exactly one user-visible error fragment, and finalizes the row with
success false, the response overwritten by the formatted error string, and
all three token counts 0; the outcome is always a well-formed stream, so
nothing propagates past the request boundary. -/
theorem generation_failure_semantics (cfg : LimitsConfig) (env : Env)
    (req : ChatRequestModel) (toks : List String) (err : String)
    (h1 : env.sigValid = true)
    (h2 : freeModelViolation env.isPro req.model_name = false)
    (hq : todayRequestCount env.db req.public_key env.todayStart <
      dailyLimitFor cfg env.isPro)
    (htool : env.isPro = true ∨ (requestedToolsOf req.tools).length ≤ 1)
    (hg : env.gen = .failure toks err) :
    process_chat_request cfg env req =
      .streamed (failed_row env req err)
        (Chunk.conversationKey (resolved_key env req)
          :: (toks.map Chunk.content ++ [Chunk.errorJson err]))
        (some (engine_config req)) ∧
    (chunksOf (process_chat_request cfg env req)).filter isErrorChunk =
      [Chunk.errorJson err] ∧
    (failed_row env req err).success = false ∧
    (failed_row env req err).response = some ("Error: " ++ err) ∧
    (failed_row env req err).input_token_count = some 0 ∧
    (failed_row env req err).output_token_count = some 0 ∧
    (failed_row env req err).total_token_count = some 0 := by
  have h := process_gates_passed cfg env req h1 h2 hq
  have h' := stream_response_failure env req toks err htool hg
  rw [h, h']
  refine ⟨rfl, ?_, rfl, rfl, rfl, rfl, rfl⟩
  simp [chunksOf, isErrorChunk, List.filter_append, filter_content_no_error]

/-- Witness for C3 at a concrete input. -/
theorem generation_failure_semantics_witness :
    envHelloFail.sigValid = true ∧
    envHelloFail.gen = GenOutcome.failure ["Hello, "] "boom" ∧
    (chunksOf (process_chat_request defaultCfg envHelloFail
      { baseReq with tools := ["jupiter_swap_tool"] })).filter isErrorChunk =
      [Chunk.errorJson "boom"] :=
  ⟨rfl, rfl,
    (generation_failure_semantics defaultCfg envHelloFail
      { baseReq with tools := ["jupiter_swap_tool"] } ["Hello, "] "boom"
      (by decide) (by decide) (by decide) (Or.inr (by decide)) rfl).2.1⟩

/-- Counterexample for claim C5: a free-tier caller at the daily allowance
who selects a pro-only model is rejected with the model-tier error payload,
not the rate-limit payload, because model-tier gating takes precedence. -/
theorem at_limit_pro_model_rejects_with_model_error :
    dailyLimitFor defaultCfg envAtLimit.isPro ≤
      todayRequestCount envAtLimit.db baseReq.public_key envAtLimit.todayStart ∧
    process_chat_request defaultCfg envAtLimit
      { baseReq with model_name := some .gpt_4o } =
      .rejected [Chunk.errorJson freeModelMsg] ∧
    freeModelMsg ≠ freeLimitMsg := by
  refine ⟨by decide, by decide, by decide⟩

/-- Claim C5 (amended): for every authenticated identity whose model
selection passes the model-tier gate, if the count of rows created since
UTC midnight is at least the tier allowance the request is rejected with
the streamed rate-limit error payload of its tier and no row is created,
and with the count exactly one below the allowance the request is admitted
past the quota gate (a row is created and streaming begins). -/
theorem daily_quota_gate (cfg : LimitsConfig) (env : Env) (req : ChatRequestModel)
    (h1 : env.sigValid = true)
    (h2 : freeModelViolation env.isPro req.model_name = false) :
    (dailyLimitFor cfg env.isPro ≤
        todayRequestCount env.db req.public_key env.todayStart →
      process_chat_request cfg env req =
        .rejected [Chunk.errorJson
          (if env.isPro = true then proLimitMsg else freeLimitMsg)] ∧
      rowsCreated (process_chat_request cfg env req) = 0) ∧
    (todayRequestCount env.db req.public_key env.todayStart + 1 =
        dailyLimitFor cfg env.isPro →
      ∃ row chunks eng,
        process_chat_request cfg env req = .streamed row chunks eng) := by
  have hs : ¬ (env.sigValid = false) := by simp [h1]
  have hm : ¬ (freeModelViolation env.isPro req.model_name = true) := by simp [h2]
  constructor
  · intro hle
    by_cases hpro : env.isPro = true
    · have hle' : cfg.PRO_USER_DAILY_LIMIT ≤
          todayRequestCount env.db req.public_key env.todayStart := by
        simpa [dailyLimitFor, hpro] using hle
      have heq : process_chat_request cfg env req =
          .rejected [Chunk.errorJson proLimitMsg] := by
        rw [process_chat_request, if_neg hs, if_neg hm, if_pos ⟨hpro, hle'⟩]
      rw [heq, if_pos hpro]
      exact ⟨rfl, rfl⟩
    · have hfree : env.isPro = false := by
        revert hpro; cases env.isPro <;> simp
      have hle' : cfg.FREE_USER_DAILY_LIMIT ≤
          todayRequestCount env.db req.public_key env.todayStart := by
        simpa [dailyLimitFor, hfree] using hle
      have hp : ¬ (env.isPro = true ∧ cfg.PRO_USER_DAILY_LIMIT ≤
          todayRequestCount env.db req.public_key env.todayStart) := by
        rintro ⟨h, _⟩; exact hpro h
      have heq : process_chat_request cfg env req =
          .rejected [Chunk.errorJson freeLimitMsg] := by
        rw [process_chat_request, if_neg hs, if_neg hm, if_neg hp,
          if_pos ⟨hfree, hle'⟩]
      rw [heq, if_neg hpro]
      exact ⟨rfl, rfl⟩
  · intro hone
    have hq : todayRequestCount env.db req.public_key env.todayStart <
        dailyLimitFor cfg env.isPro := by omega
    rw [process_gates_passed cfg env req h1 h2 hq]
    exact stream_response_streamed env req

/-- Witness for the amended C5 at a concrete input: user `u` at the free
allowance of 10 is rejected with the free-tier rate-limit payload. -/
theorem daily_quota_gate_witness :
    envAtLimit.sigValid = true ∧
    freeModelViolation envAtLimit.isPro baseReq.model_name = false ∧
    dailyLimitFor defaultCfg envAtLimit.isPro ≤
      todayRequestCount envAtLimit.db baseReq.public_key envAtLimit.todayStart ∧
    process_chat_request defaultCfg envAtLimit baseReq =
      .rejected [Chunk.errorJson
        (if envAtLimit.isPro = true then proLimitMsg else freeLimitMsg)] ∧
    rowsCreated (process_chat_request defaultCfg envAtLimit baseReq) = 0 :=
  ⟨by decide, by decide, by decide,
    (daily_quota_gate defaultCfg envAtLimit baseReq (by decide) (by decide)).1
      (by decide)⟩

/-- For every allowed model identifier with the lumo- prefix, the router
chooses the Infyr backend with the 4096 token ceiling, direct mode, and
an empty tool set. -/
theorem engine_config_lumo (req : ChatRequestModel) (m : AllowedModelName)
    (hm : req.model_name = some m)
    (hlumo : starts_with (modelString m) "lumo-" = true) :
    engine_config req =
      { backend := .infyr, directMode := true, maxTokens := some 4096
        toolNames := [] } := by
  have hroute : routeBackend (modelString m) = .infyr := by
    revert hlumo; cases m <;> decide
  rw [engine_config]
  simp [hm, modelStringOf, hroute, hlumo]

/-- Counterexample for claim C6: a free-tier caller selecting a lumo
model with 3 registry-known capabilities hits the tool-cap error before
the lumo override, so the engine never runs at all (the capability list is
not irrelevant for free callers). -/
theorem free_lumo_three_tools_no_engine :
    engineOf (process_chat_request defaultCfg baseEnv
      { baseReq with model_name := some .lumo_8b, tools := threeKnownTools }) = none ∧
    hitToolLimit (process_chat_request defaultCfg baseEnv
      { baseReq with model_name := some .lumo_8b, tools := threeKnownTools }) = true := by
  constructor
  · decide
  · decide

/-- Claim C6 (amended): for every submit-chat-turn past the gates and the
free-tier capability cap (any pro caller regardless of requested
capability list, or a free caller with at most one registry-known
capability) whose model identifier has the lumo- prefix, the engine runs
in direct conversational mode via the secondary (Infyr) endpoint with an
output-token ceiling of 4096 and zero tools. -/
theorem lumo_model_direct_mode (cfg : LimitsConfig) (env : Env)
    (req : ChatRequestModel) (m : AllowedModelName)
    (h1 : env.sigValid = true)
    (h2 : freeModelViolation env.isPro req.model_name = false)
    (hq : todayRequestCount env.db req.public_key env.todayStart <
      dailyLimitFor cfg env.isPro)
    (htool : env.isPro = true ∨ (requestedToolsOf req.tools).length ≤ 1)
    (hm : req.model_name = some m)
    (hlumo : starts_with (modelString m) "lumo-" = true) :
    engineOf (process_chat_request cfg env req) =
      some { backend := .infyr, directMode := true, maxTokens := some 4096
             toolNames := [] } := by
  rw [process_gates_passed cfg env req h1 h2 hq]
  obtain ⟨row, chunks, hstream⟩ := stream_response_engine env req htool
  rw [hstream]
  simp only [engineOf]
  rw [engine_config_lumo req m hm hlumo]

/-- Witness for the amended C6 at a concrete input: a pro caller with a
lumo model and three requested capabilities still gets direct mode with
zero tools. -/
theorem lumo_model_direct_mode_witness :
    envPro.isPro = true ∧
    starts_with (modelString AllowedModelName.lumo_8b) "lumo-" = true ∧
    engineOf (process_chat_request defaultCfg envPro
      { baseReq with model_name := some .lumo_8b, tools := threeKnownTools }) =
      some { backend := .infyr, directMode := true, maxTokens := some 4096
             toolNames := [] } :=
  ⟨by decide, by decide,
    lumo_model_direct_mode defaultCfg envPro
      { baseReq with model_name := some .lumo_8b, tools := threeKnownTools }
      .lumo_8b (by decide) (by decide) (by decide) (Or.inl (by decide)) rfl
      (by decide)⟩

/-- Claim C10 (confirmed): the free-tier additional-capability limit is
evaluated on the requested list after filtering registry-unknown
identifiers but before de-duplication: for every free-tier request past
the gates, the limit error fires exactly when the filtered list has at
least 2 entries, so unknown identifiers never trigger it, while a list of
two identical registry-known entries does. -/
theorem free_tool_cap_semantics (cfg : LimitsConfig) (env : Env)
    (req : ChatRequestModel)
    (h1 : env.sigValid = true)
    (h2 : freeModelViolation env.isPro req.model_name = false)
    (hq : todayRequestCount env.db req.public_key env.todayStart <
      dailyLimitFor cfg env.isPro)
    (hfree : env.isPro = false) :
    (hitToolLimit (process_chat_request cfg env req) = true ↔
      2 ≤ (requestedToolsOf req.tools).length) ∧
    ((∀ t ∈ req.tools, availableToolNames.contains t = false) →
      hitToolLimit (process_chat_request cfg env req) = false) ∧
    (∀ n, availableToolNames.contains n = true → req.tools = [n, n] →
      hitToolLimit (process_chat_request cfg env req) = true) := by
  rw [process_gates_passed cfg env req h1 h2 hq]
  by_cases hlen : 1 < (requestedToolsOf req.tools).length
  · rw [stream_response_toolLimit env req hfree hlen]
    refine ⟨?_, ?_, ?_⟩
    · simp only [hitToolLimit]
      constructor
      · intro _; omega
      · intro _; trivial
    · intro hall
      exfalso
      have hnil : requestedToolsOf req.tools = [] := by
        rw [requestedToolsOf, List.filter_eq_nil_iff]
        intro t ht
        simpa using hall t ht
      simp [hnil] at hlen
    · intro n _ _
      rfl
  · obtain ⟨row, chunks, hstream⟩ :=
      stream_response_engine env req (Or.inr (by omega))
    rw [hstream]
    refine ⟨?_, fun _ => rfl, ?_⟩
    · simp only [hitToolLimit]
      constructor
      · intro h; exact absurd h (by simp)
      · intro h; omega
    · intro n hn htools
      exfalso
      have hn' : n ∈ availableToolNames := by simpa using hn
      rw [htools, requestedToolsOf] at hlen
      simp [hn'] at hlen

/-- Witness for C10 at a concrete input: a duplicated known identifier
trips the cap for a free caller. -/
theorem free_tool_cap_semantics_witness :
    baseEnv.isPro = false ∧
    availableToolNames.contains "jupiter_swap_tool" = true ∧
    hitToolLimit (process_chat_request defaultCfg baseEnv
      { baseReq with tools := ["jupiter_swap_tool", "jupiter_swap_tool"] }) = true :=
  ⟨by decide, by decide,
    (free_tool_cap_semantics defaultCfg baseEnv
      { baseReq with tools := ["jupiter_swap_tool", "jupiter_swap_tool"] }
      (by decide) (by decide) (by decide) (by decide)).2.2
      "jupiter_swap_tool" (by decide) rfl⟩

/-- A minted conversation key always has exactly 10 characters. -/
theorem generate_conversation_key_length (pick : Nat → Fin keyChars.length) :
    string_len (generate_conversation_key pick) = 10 := by
  simp [generate_conversation_key, string_len]

/-- Every character of the key alphabet is alphanumeric. -/
theorem keyChars_alphanum : ∀ c ∈ keyChars, (c.isAlpha || c.isDigit) = true := by
  decide

/-- Every character of a minted conversation key is alphanumeric. -/
theorem generate_conversation_key_alphanum (pick : Nat → Fin keyChars.length) :
    ∀ c ∈ (generate_conversation_key pick).data,
      (c.isAlpha || c.isDigit) = true := by
  intro c hc
  simp [generate_conversation_key] at hc
  obtain ⟨i, _, rfl⟩ := hc
  exact keyChars_alphanum _ (keyChars.get_mem _ _)

/-- When the supplied key is absent or unknown for the identity, the
resolver uses the freshly generated key. -/
theorem resolveConversationKey_fresh (db : List Turn) (pk : String)
    (supplied : Option String) (fresh : String)
    (h : supplied = none ∨
      ∃ k, supplied = some k ∧ existing_conversation db pk k = false) :
    resolveConversationKey db pk supplied fresh = fresh := by
  rcases h with h | ⟨k, hk, hex⟩
  · rw [h, resolveConversationKey]
  · rw [hk]
    simp [resolveConversationKey, hex]

/-- Claim C8 (confirmed): for every authenticated submit-chat-turn past
the gates whose supplied conversation key has no row for
`{identity, key}` (or whose key is absent), the pipeline does not fail on
that account: it mints a fresh 10-character alphanumeric conversation key
and returns it as the first streamed chunk. -/
theorem unknown_key_mints_fresh_key (cfg : LimitsConfig) (env : Env)
    (req : ChatRequestModel)
    (h1 : env.sigValid = true)
    (h2 : freeModelViolation env.isPro req.model_name = false)
    (hq : todayRequestCount env.db req.public_key env.todayStart <
      dailyLimitFor cfg env.isPro)
    (hkey : req.conversation_key = none ∨
      ∃ k, req.conversation_key = some k ∧
        existing_conversation env.db req.public_key k = false) :
    (∃ row chunks eng, process_chat_request cfg env req =
      .streamed row
        (Chunk.conversationKey (generate_conversation_key env.pick) :: chunks)
        eng) ∧
    string_len (generate_conversation_key env.pick) = 10 ∧
    ∀ c ∈ (generate_conversation_key env.pick).data,
      (c.isAlpha || c.isDigit) = true := by
  have hres : resolved_key env req = generate_conversation_key env.pick := by
    rw [resolved_key]
    exact resolveConversationKey_fresh _ _ _ _ hkey
  refine ⟨?_, generate_conversation_key_length env.pick,
    generate_conversation_key_alphanum env.pick⟩
  rw [process_gates_passed cfg env req h1 h2 hq]
  rw [stream_response]
  by_cases hcond : env.isPro = false ∧ 1 < (requestedToolsOf req.tools).length
  · rw [if_pos hcond, hres]
    exact ⟨_, _, _, rfl⟩
  · rw [if_neg hcond]
    cases env.gen
    · rw [hres]; exact ⟨_, _, _, rfl⟩
    · rw [hres]; exact ⟨_, _, _, rfl⟩

/-- Witness for C8 at a concrete input: key "zzz" is unknown for user `u`
on an empty store, so the minted key "aaaaaaaaaa" is streamed first. -/
theorem unknown_key_mints_fresh_key_witness :
    existing_conversation baseEnv.db baseReq.public_key "zzz" = false ∧
    ((∃ row chunks eng, process_chat_request defaultCfg baseEnv
        { baseReq with conversation_key := some "zzz" } =
      .streamed row
        (Chunk.conversationKey (generate_conversation_key baseEnv.pick) :: chunks)
        eng) ∧
    string_len (generate_conversation_key baseEnv.pick) = 10 ∧
    ∀ c ∈ (generate_conversation_key baseEnv.pick).data,
      (c.isAlpha || c.isDigit) = true) :=
  ⟨by decide,
    unknown_key_mints_fresh_key defaultCfg baseEnv
      { baseReq with conversation_key := some "zzz" }
      (by decide) (by decide) (by decide)
      (Or.inr ⟨"zzz", rfl, by decide⟩)⟩

/-- Dropping the last element of a reversed list reverses the tail. -/
theorem reverse_dropLast_eq_tail_reverse {α : Type} (l : List α) :
    l.reverse.dropLast = l.tail.reverse := by
  cases l with
  | nil => rfl
  | cons a t => simp [List.dropLast_concat]

/-- The tail of a reversed list reverses the initial segment. -/
theorem reverse_tail_eq_dropLast_reverse {α : Type} (l : List α) :
    l.reverse.tail = l.dropLast.reverse := by
  have h := reverse_dropLast_eq_tail_reverse l.reverse
  rw [List.reverse_reverse] at h
  rw [h, List.reverse_reverse]

/-- Taking `n + 1` then dropping the head commutes to the tail. -/
theorem tail_take_succ {α : Type} (l : List α) (n : Nat) :
    (l.take (n + 1)).tail = l.tail.take n := by
  cases l <;> simp

/-- Dropping the last of the last `n + 1` elements yields the last `n`
elements of the list without its last element. -/
theorem rtake_succ_dropLast {α : Type} (l : List α) (n : Nat) :
    (l.rtake (n + 1)).dropLast = l.dropLast.rtake n := by
  rw [List.rtake_eq_reverse_take_reverse, reverse_dropLast_eq_tail_reverse,
    tail_take_succ, reverse_tail_eq_dropLast_reverse,
    ← List.rtake_eq_reverse_take_reverse]

/-- Claim C7 (confirmed): for every submit-chat-turn continuing an
existing conversation, with `chron` the rows for `{identity, key}` in
chronological order (the current turn last), the prior turns supplied to
the model are exactly the last (at most) 4 turns preceding the current
one, oldest-to-newest — obtained precisely as the code does, by fetching
the 5 most recent rows by recency, reversing them and dropping the
current; with at least 5 rows in the conversation exactly 4 prior turns
are supplied. -/
theorem prior_history_is_last_four (db : List Turn) (pk key : String)
    (chron : List Turn)
    (hsort : sortByTimeDesc (turnsFor db pk key) = chron.reverse) :
    prior_history db pk key = chron.dropLast.rtake 4 ∧
    (5 ≤ chron.length → (prior_history db pk key).length = 4) := by
  have hph : prior_history db pk key = (chron.rtake 5).dropLast := by
    rw [prior_history, conversation_history, hsort,
      ← List.rtake_eq_reverse_take_reverse]
  constructor
  · rw [hph, show (5 : Nat) = 4 + 1 from rfl, rtake_succ_dropLast]
  · intro h5
    rw [hph, show (5 : Nat) = 4 + 1 from rfl, rtake_succ_dropLast,
      List.rtake, List.length_drop, List.length_dropLast]
    omega

/-- Witness for C7 at a concrete input: with six rows stored
chronologically, the prior history is rows 2-5. -/
theorem prior_history_is_last_four_witness :
    sortByTimeDesc (turnsFor chron6 "u" "k") = chron6.reverse ∧
    (prior_history chron6 "u" "k" = chron6.dropLast.rtake 4 ∧
      (5 ≤ chron6.length → (prior_history chron6 "u" "k").length = 4)) :=
  ⟨by decide, prior_history_is_last_four chron6 "u" "k" chron6 (by decide)⟩

/-- The preview keeps exactly the first 50 characters of the message and
never exceeds 53 characters (50 plus the ellipsis marker). -/
theorem message_preview_truncates (msg : String) :
    string_take (message_preview msg) 50 = string_take msg 50 ∧
    string_len (message_preview msg) ≤ 53 := by
  rw [message_preview]
  by_cases h : 50 < string_len msg
  · rw [if_pos h]
    rw [string_len] at h
    constructor
    · show String.mk _ = String.mk _
      congr 1
      show ((⟨msg.data.take 50⟩ : String) ++ ("..." : String)).data.take 50 =
        msg.data.take 50
      have hlen : (msg.data.take 50).length = 50 := by
        rw [List.length_take]
        omega
      rw [String.data_append]
      rw [List.take_append_eq_append_take, hlen]
      simp
    · show (((⟨msg.data.take 50⟩ : String) ++ ("..." : String)).data).length ≤ 53
      rw [String.data_append]
      rw [List.length_append, List.length_take]
      have : ("..." : String).data.length = 3 := by decide
      omega
  · rw [if_neg h]
    rw [string_len] at h ⊢
    exact ⟨rfl, by omega⟩

/-- Rows selected for the recent-conversation list belong to the user and
carry the latest activity of their conversation. -/
theorem latest_conversations_mem (db : List Turn) (pk : String) :
    ∀ t ∈ latest_conversations db pk,
      t ∈ db ∧ t.pubkey = pk ∧ isLatestForKey (userRows db pk) t = true := by
  intro t ht
  rw [latest_conversations] at ht
  have h1 := List.mem_of_mem_take ht
  rw [sortByTimeDesc, List.mem_insertionSort, List.mem_filter] at h1
  obtain ⟨hu, hl⟩ := h1
  rw [userRows, List.mem_filter] at hu
  obtain ⟨hdb, hpk⟩ := hu
  exact ⟨hdb, by simpa using hpk, hl⟩

/-- Claim C9 (confirmed): for every identity, "list recent conversations"
returns at most 5 summaries, ordered newest first by latest activity, and
each summary comes from a stored row of that identity holding the latest
activity of its conversation key, carrying that row's timestamp and the
row's message preview truncated to its first 50 characters. -/
theorem get_last_conversations_spec (db : List Turn) (pk : String) :
    (get_last_conversations db pk).length ≤ 5 ∧
    List.Pairwise (fun a b => b.timestamp ≤ a.timestamp)
      (get_last_conversations db pk) ∧
    ∀ s ∈ get_last_conversations db pk, ∃ t,
      t ∈ db ∧ t.pubkey = pk ∧
      isLatestForKey (userRows db pk) t = true ∧
      s.conversation_key = t.conversation_key ∧
      s.timestamp = t.time ∧
      s.last_message_preview = message_preview t.message ∧
      string_take s.last_message_preview 50 = string_take t.message 50 ∧
      string_len s.last_message_preview ≤ 53 := by
  refine ⟨?_, ?_, ?_⟩
  · rw [get_last_conversations, List.length_map, latest_conversations,
      List.length_take]
    omega
  · rw [get_last_conversations, List.pairwise_map, latest_conversations]
    apply List.Pairwise.sublist (List.take_sublist 5 _)
    exact List.sorted_insertionSort timeGE _
  · intro s hs
    rw [get_last_conversations, List.mem_map] at hs
    obtain ⟨t, ht, rfl⟩ := hs
    obtain ⟨hdb, hpk, hl⟩ := latest_conversations_mem db pk t ht
    have hp := message_preview_truncates t.message
    exact ⟨t, hdb, hpk, hl, rfl, rfl, rfl, hp.1, hp.2⟩

/-- Witness for C9 at a concrete input. -/
theorem get_last_conversations_spec_witness :
    (get_last_conversations chron6 "u").length ≤ 5 ∧
    List.Pairwise (fun a b => b.timestamp ≤ a.timestamp)
      (get_last_conversations chron6 "u") ∧
    ∀ s ∈ get_last_conversations chron6 "u", ∃ t,
      t ∈ chron6 ∧ t.pubkey = "u" ∧
      isLatestForKey (userRows chron6 "u") t = true ∧
      s.conversation_key = t.conversation_key ∧
      s.timestamp = t.time ∧
      s.last_message_preview = message_preview t.message ∧
      string_take s.last_message_preview 50 = string_take t.message 50 ∧
      string_len s.last_message_preview ≤ 53 :=
  get_last_conversations_spec chron6 "u"

end LumoKit
